import Mathlib

/-!
# LabLens — extraction and classification engine, shallow embedding

This file embeds the analysis engine of `server/routes/analysis.js`:
the catalog data model, the per-test extraction algorithm
(`extractSingleTest`), panel assembly (`parseLabResults`), severity
flagging (`determineFlag`) and summary aggregation (`calculateSummary`).

Modelling conventions:
* JS strings are `List Char`; the regex matching of `extractSingleTest`
  is embedded for patterns that contain no regex metacharacters, which
  is exactly how the source intends the interpolated test names to be
  read (the pattern text is matched literally, case-insensitively).
* JS numbers are `ℚ` (the catalog ranges and the extracted values are
  decimal literals, on which the source's arithmetic is exact).
  A `value : Option ℚ` with `none` models JS `NaN` (the result of
  `parseFloat` on a token that is not a valid number); every comparison
  against `NaN` is false in JS, which the embedding makes explicit.
* JS objects used as ordered maps are association lists.
-/

namespace LabLens

/-- ASCII lower-casing of one character; models the effect of the
case-insensitive (`'i'`) regex flag on the ASCII test names. -/
def lowerChar (c : Char) : Char :=
  if 'A' ≤ c ∧ c ≤ 'Z' then Char.ofNat (c.toNat + 32) else c

/-- ASCII upper-casing of one character; models `String.prototype.toUpperCase`
on the ASCII test ids. -/
def upperChar (c : Char) : Char :=
  if 'a' ≤ c ∧ c ≤ 'z' then Char.ofNat (c.toNat - 32) else c

/-- JS `toUpperCase` over a whole string. -/
def asciiUpper (s : List Char) : List Char := s.map upperChar

/-- The severity flag of an extracted test (`determineFlag`'s codomain). -/
inductive Flag
  | normal
  | borderline
  | abnormal
  | critical
deriving DecidableEq, Repr

/-- The function `determineFlag(value, min, max)` of analysis.js (lines 362-369).
`value = none` models JS `NaN`: `NaN < min` and `NaN > max` are both
false, so the function returns `'normal'`. -/
def determineFlag (value : Option ℚ) (mn mx : ℚ) : Flag :=
  match value with
  | none => Flag.normal
  | some v =>
    if v < mn then
      if v < mn * 0.8 then Flag.critical
      else if v < mn * 0.9 then Flag.abnormal
      else Flag.borderline
    else if v > mx then
      if v > mx * 1.2 then Flag.critical
      else if v > mx * 1.1 then Flag.abnormal
      else Flag.borderline
    else Flag.normal

/-- JS `\s` on the ASCII whitespace the reports contain. -/
def isWS (c : Char) : Bool :=
  c = ' ' ∨ c = '\t' ∨ c = '\n' ∨ c = '\r'

/-- A character the capture group `[0-9.]+` accepts: a digit or a dot. -/
def isNumChar (c : Char) : Bool :=
  c.isDigit ∨ c = '.'

/-- Case-insensitive literal match of `pat` at the head of `s`; on success
returns the remainder of `s`.  Models the interpolated test-name text of the
regex of analysis.js line 312 under the `'i'` flag, for pattern text free of
regex metacharacters. -/
def dropPattern : List Char → List Char → Option (List Char)
  | [], s => some s
  | _ :: _, [] => none
  | p :: ps, c :: cs =>
    if lowerChar p = lowerChar c then dropPattern ps cs else none

/-- One anchored attempt of the regex
`pattern\s*:?\s*([0-9.]+)\s*(unit)?` at the head of `s`: the pattern text,
then optional whitespace, an optional colon, optional whitespace, then the
greedy capture `[0-9.]+` (returned).  The trailing `\s*(unit)?` can always
match the empty string, so it never affects success or the capture and is
not represented. -/
def matchCapture (pat s : List Char) : Option (List Char) :=
  match dropPattern pat s with
  | none => none
  | some rest =>
    let r1 := rest.dropWhile isWS
    let r2 := if r1.head? = some ':' then r1.tail.dropWhile isWS else r1
    let run := r2.takeWhile isNumChar
    if run = [] then none else some run

/-- JS `text.match(regex)` for the regex above: the attempt is made at every
position left to right and the first success wins; the returned value is the
captured `[0-9.]+` run. -/
def findMatch : List Char → List Char → Option (List Char)
  | [], pat => matchCapture pat []
  | c :: t, pat =>
    match matchCapture pat (c :: t) with
    | some r => some r
    | none => findMatch t pat

/-- The numeric value of a digit string, most significant digit first. -/
def natOfDigits (s : List Char) : ℕ :=
  s.foldl (fun n c => 10 * n + (c.toNat - 48)) 0

/-- The call `parseFloat(match[1])` of analysis.js line 316, on the captured run:
JS `parseFloat` reads the longest prefix of the form
`digits [. digits]` or `. digits` and returns `NaN` (here `none`) when no
such prefix exists (e.g. on `"."` or `"..5"`). -/
def parseFloatRun (s : List Char) : Option ℚ :=
  let intPart := s.takeWhile Char.isDigit
  let rest := s.drop intPart.length
  match rest with
  | '.' :: r2 =>
    let frac := r2.takeWhile Char.isDigit
    if intPart = [] ∧ frac = [] then none
    else some ((natOfDigits intPart : ℚ) + (natOfDigits frac : ℚ) / (10 : ℚ) ^ frac.length)
  | _ => if intPart = [] then none else some (natOfDigits intPart : ℚ)

/-- A test's `referenceRange` as the catalog stores it: a flat
`{min, max}` object, a gender-keyed object, or a plain string. -/
inductive RefRange
  | flat (mn mx : ℚ)
  | gendered (male female : Option (ℚ × ℚ))
  | str (s : List Char)
deriving DecidableEq, Repr

/-- A catalog test definition (one entry of `panelDef.tests`). -/
structure TestDef where
  name : List Char
  unit : List Char
  referenceRange : RefRange
  explanation : List Char
  category : List Char
deriving DecidableEq, Repr

/-- The expression `testDef.name.replace(/[()]/g, '')`: removes the parenthesis characters
themselves and nothing else (the enclosed content is kept). -/
def removeParenChars (s : List Char) : List Char :=
  s.filter (fun c => (c != '(') && (c != ')'))

/-- The expression `testId.replace(/_/g, ' ')`. -/
def underscoreToSpace (s : List Char) : List Char :=
  s.map (fun c => if c = '_' then ' ' else c)

/-- The `testNamePatterns` array of analysis.js lines 299-304, in source
order. -/
def testNamePatterns (testId : List Char) (testDef : TestDef) : List (List Char) :=
  [testDef.name,
   removeParenChars testDef.name,
   asciiUpper testId,
   asciiUpper (underscoreToSpace testId)]

/-- The pattern loop of analysis.js lines 311-319: patterns are tried in
order; the first whose regex matches ends the loop and its capture is fed to
`parseFloat`.  The outer `none` models `value === null` (no pattern
matched); an inner `none` models a match whose capture parsed to `NaN`. -/
def extractValue (text : List Char) (pats : List (List Char)) : Option (Option ℚ) :=
  (pats.findSome? (fun p => findMatch text p)).map parseFloatRun

/-- The expression `refRange.male || refRange.female` (analysis.js line 334). -/
def pickGenderRange (male female : Option (ℚ × ℚ)) : Option (ℚ × ℚ) :=
  match male with
  | some r => some r
  | none => female

/-- Digits of `n`, most significant first (`fuel`-bounded division loop). -/
def natDigitsAux : ℕ → ℕ → List Char
  | 0, _ => []
  | fuel + 1, n =>
    if n < 10 then [Char.ofNat (48 + n)]
    else natDigitsAux fuel (n / 10) ++ [Char.ofNat (48 + n % 10)]

/-- Decimal digits of a natural number. -/
def natDigits (n : ℕ) : List Char := natDigitsAux (n + 1) n

/-- Decimal digits of the fraction `num / den` (`num < den`), up to `fuel`
places, stopping when the expansion terminates (long division on the
numerator and denominator, so that the definition evaluates by pure
natural-number arithmetic). -/
def fracDigitsAux : ℕ → ℕ → ℕ → List Char
  | 0, _, _ => []
  | fuel + 1, num, den =>
    if num = 0 then []
    else
      let n10 := num * 10
      Char.ofNat (48 + n10 / den) :: fracDigitsAux fuel (n10 % den) den

/-- Rendering of a non-negative JS number whose decimal expansion
terminates (every catalog bound is such a decimal literal). -/
def jsNumToStringNN (q : ℚ) : List Char :=
  let ip : ℕ := (q.num / (q.den : ℤ)).toNat
  let remNum : ℕ := (q.num - (ip : ℤ) * (q.den : ℤ)).toNat
  natDigits ip ++
    (if remNum = 0 then [] else '.' :: fracDigitsAux 20 remNum q.den)

/-- JS number-to-string for the terminating decimals the catalog holds. -/
def jsNumToString (q : ℚ) : List Char :=
  if q < 0 then '-' :: jsNumToStringNN (-q) else jsNumToStringNN q

/-- The template literal `` `${min} - ${max} ${unit}` `` of analysis.js
lines 330 and 335. -/
def rangeString (mn mx : ℚ) (unit : List Char) : List Char :=
  jsNumToString mn ++ (' ' :: '-' :: ' ' :: []) ++ jsNumToString mx
    ++ (' ' :: []) ++ unit

/-- The record built by `extractSingleTest` (analysis.js lines 342-351).
`value = none` models `NaN`; `referenceRange = none` and
`referenceRangeNumeric = none` model `null`. -/
structure ExtractedTest where
  name : List Char
  value : Option ℚ
  unit : List Char
  referenceRange : Option (List Char)
  referenceRangeNumeric : Option RefRange
  flag : Flag
  explanation : List Char
  category : List Char
deriving DecidableEq, Repr

/-- The function `extractSingleTest(text, testDef, testId)` of analysis.js lines 296-357:
try the name patterns in order; without a regex match return `null`;
otherwise resolve the reference range (flat object, gender-keyed object
picking male over female, or anything else — e.g. a plain string — which
leaves the flag `'normal'`) and assemble the record. -/
def extractSingleTest (text : List Char) (testDef : TestDef) (testId : List Char) :
    Option ExtractedTest :=
  match extractValue text (testNamePatterns testId testDef) with
  | none => none
  | some value =>
    match testDef.referenceRange with
    | RefRange.flat mn mx =>
      some { name := testDef.name, value := value, unit := testDef.unit,
             referenceRange := some (rangeString mn mx testDef.unit),
             referenceRangeNumeric := some (RefRange.flat mn mx),
             flag := determineFlag value mn mx,
             explanation := testDef.explanation, category := testDef.category }
    | RefRange.gendered m f =>
      match pickGenderRange m f with
      | some (mn, mx) =>
        some { name := testDef.name, value := value, unit := testDef.unit,
               referenceRange := some (rangeString mn mx testDef.unit),
               referenceRangeNumeric := some (RefRange.gendered m f),
               flag := determineFlag value mn mx,
               explanation := testDef.explanation, category := testDef.category }
      | none =>
        some { name := testDef.name, value := value, unit := testDef.unit,
               referenceRange := none,
               referenceRangeNumeric := some (RefRange.gendered m f),
               flag := Flag.normal,
               explanation := testDef.explanation, category := testDef.category }
    | RefRange.str s =>
      some { name := testDef.name, value := value, unit := testDef.unit,
             referenceRange := some s,
             referenceRangeNumeric := none,
             flag := Flag.normal,
             explanation := testDef.explanation, category := testDef.category }

/-- A catalog panel definition (`definitions.labPanels[panelId]`). -/
structure PanelDef where
  name : List Char
  description : List Char
  tests : List (List Char × TestDef)
deriving DecidableEq, Repr

/-- The definitions document (`data/definitions.json` once parsed). -/
structure Catalog where
  labPanels : List (List Char × PanelDef)
deriving DecidableEq, Repr

/-- The function `extractTestsForPanel` of analysis.js lines 280-291: per-test extraction
over the panel's tests, keeping the successes keyed by test id. -/
def extractTestsForPanel (text : List Char) (panelDef : PanelDef) :
    List (List Char × ExtractedTest) :=
  panelDef.tests.filterMap
    (fun t => (extractSingleTest text t.2 t.1).map (fun r => (t.1, r)))

/-- One output panel (analysis.js lines 257-261). -/
structure Panel where
  name : List Char
  description : List Char
  tests : List (List Char × ExtractedTest)
deriving DecidableEq, Repr

/-- The `{ panels }` value `parseLabResults` resolves with. -/
structure AnalysisResult where
  panels : List (List Char × Panel)
deriving DecidableEq, Repr

/-- The two structured per-request failures of `parseLabResults`:
`'parsing: Insufficient text extracted from PDF'` (line 246) and
`'parsing: No recognizable lab tests found in the document'` (line 266). -/
inductive ParseError
  | insufficientText
  | noMatch
deriving DecidableEq, Repr

/-- The `panels` object built by the loop of analysis.js lines 250-263:
every catalog panel is scanned, and a panel enters the output exactly when
`Object.keys(panelTests).length > 0`. -/
def assemblePanels (definitions : Catalog) (extractedText : List Char) :
    List (List Char × Panel) :=
  definitions.labPanels.filterMap (fun p =>
    let panelTests := extractTestsForPanel extractedText p.2
    if panelTests = [] then none
    else some (p.1, { name := p.2.name, description := p.2.description,
                      tests := panelTests }))

/-- The function `parseLabResults` of analysis.js lines 236-275, after the catalog has
been read: reject text shorter than 100 characters, assemble the panels,
reject an empty panel set, otherwise succeed.  (The `!extractedText` guard
of line 245 is subsumed: an empty string has length `0 < 100`.) -/
def parseLabResults (definitions : Catalog) (extractedText : List Char) :
    Except ParseError AnalysisResult :=
  if extractedText.length < 100 then Except.error ParseError.insufficientText
  else if assemblePanels definitions extractedText = [] then
    Except.error ParseError.noMatch
  else Except.ok { panels := assemblePanels definitions extractedText }

/-- The running counters of `calculateSummary` (analysis.js lines 375-379). -/
structure SummaryAcc where
  totalTests : ℕ
  normalCount : ℕ
  borderlineCount : ℕ
  abnormalCount : ℕ
  criticalCount : ℕ
deriving DecidableEq, Repr

/-- One iteration of the `forEach` body (lines 383-389): `totalTests++`
then the `switch` on the flag. -/
def summaryStep (acc : SummaryAcc) (t : ExtractedTest) : SummaryAcc :=
  let acc := { acc with totalTests := acc.totalTests + 1 }
  match t.flag with
  | Flag.normal => { acc with normalCount := acc.normalCount + 1 }
  | Flag.borderline => { acc with borderlineCount := acc.borderlineCount + 1 }
  | Flag.abnormal => { acc with abnormalCount := acc.abnormalCount + 1 }
  | Flag.critical => { acc with criticalCount := acc.criticalCount + 1 }

/-- The object returned by `calculateSummary` (lines 393-400). -/
structure Summary where
  totalTests : ℕ
  normalCount : ℕ
  borderlineCount : ℕ
  abnormalCount : ℕ
  criticalCount : ℕ
  flaggedTests : ℕ
deriving DecidableEq, Repr

/-- The function `calculateSummary(panels)` of analysis.js lines 374-401: fold the
counter updates over every test of every panel, then report the counters
with `flaggedTests = totalTests - normalCount`. -/
def calculateSummary (panels : List (List Char × Panel)) : Summary :=
  let acc := panels.foldl
    (fun a p => p.2.tests.foldl (fun a t => summaryStep a t.2) a)
    ⟨0, 0, 0, 0, 0⟩
  { totalTests := acc.totalTests, normalCount := acc.normalCount,
    borderlineCount := acc.borderlineCount, abnormalCount := acc.abnormalCount,
    criticalCount := acc.criticalCount,
    flaggedTests := acc.totalTests - acc.normalCount }

/-- The error kinds §4.1 of the spec ascribes to the catalog loader. -/
inductive ValidationError
  | duplicateTestIds
  | invalidRange
  | missingField
deriving DecidableEq, Repr

/-- The catalog load step of analysis.js line 240: the definitions document
is `JSON.parse`d and used directly — no validation of any kind is performed
on it, so loading a parsed document always succeeds with the document
itself. -/
def loadCatalog (doc : Catalog) : Except ValidationError Catalog :=
  Except.ok doc

end LabLens

/-- C1: For a resolved numeric range `{min, max}` with `min < max`, the
flag is Normal when `min ≤ value ≤ max`; below the minimum it is Critical
when `value < min·0.8`, Abnormal when `min·0.8 ≤ value < min·0.9`, else
Borderline; above the maximum it is Critical when `value > max·1.2`,
Abnormal when `max·1.1 < value ≤ max·1.2`, else Borderline. -/
theorem LabLens.determineFlag_ladder (v mn mx : ℚ) (hlt : mn < mx) :
    (mn ≤ v → v ≤ mx → determineFlag (some v) mn mx = Flag.normal) ∧
    (v < mn → v < mn * 0.8 → determineFlag (some v) mn mx = Flag.critical) ∧
    (v < mn → mn * 0.8 ≤ v → v < mn * 0.9 →
      determineFlag (some v) mn mx = Flag.abnormal) ∧
    (v < mn → mn * 0.9 ≤ v → determineFlag (some v) mn mx = Flag.borderline) ∧
    (v > mx → v > mx * 1.2 → determineFlag (some v) mn mx = Flag.critical) ∧
    (v > mx → v ≤ mx * 1.2 → v > mx * 1.1 →
      determineFlag (some v) mn mx = Flag.abnormal) ∧
    (v > mx → v ≤ mx * 1.1 → determineFlag (some v) mn mx = Flag.borderline) := by
  refine ⟨?_, ?_, ?_, ?_, ?_, ?_, ?_⟩ <;> intros <;>
    dsimp only [determineFlag] <;> split_ifs <;> first | rfl | linarith

/-- Witness for C1 at the spec's own example: with range `{min:120, max:155}`
the value 95 satisfies `95 < 120` and `95 < 120·0.8 = 96`, and the engine
flags it Critical. -/
theorem LabLens.determineFlag_ladder_witness :
    LabLens.determineFlag (some 95) 120 155 = LabLens.Flag.critical :=
  ((LabLens.determineFlag_ladder 95 120 155 (by norm_num)).2.1)
    (by norm_num) (by norm_num)

namespace LabLens

/-- Fixture: a flat-range haemoglobin test definition. -/
def hgbDef : TestDef :=
  { name := ("HGB").data, unit := ("g/L").data,
    referenceRange := RefRange.flat 120 155,
    explanation := ("Oxygen-carrying protein").data,
    category := ("blood").data }

/-- Fixture: a one-panel catalog holding `hgbDef` under id `hgb`. -/
def cbcCatalog : Catalog :=
  { labPanels := [ (("cbc").data,
      { name := ("CBC").data,
        description := ("Complete blood count").data,
        tests := [ (("hgb").data, hgbDef) ] }) ] }

/-- Fixture: a 100-character report text containing a haemoglobin reading. -/
def reportText : List Char := ("HGB: 140 ").data ++ List.replicate 91 'x'

/-- Fixture: 100 characters containing no test pattern at all. -/
def blankText : List Char := List.replicate 100 'x'

/-- Fixture: the record `extractSingleTest` produces from `reportText` and
`hgbDef`. -/
def hgbResult : ExtractedTest :=
  { name := ("HGB").data, value := some 140, unit := ("g/L").data,
    referenceRange := some (("120 - 155 g/L").data),
    referenceRangeNumeric := some (RefRange.flat 120 155),
    flag := Flag.normal,
    explanation := ("Oxygen-carrying protein").data,
    category := ("blood").data }

/-- Fixture: the analysis result for `cbcCatalog` over `reportText`. -/
def cbcResult : AnalysisResult :=
  { panels := [ (("cbc").data,
      { name := ("CBC").data,
        description := ("Complete blood count").data,
        tests := [ (("hgb").data, hgbResult) ] }) ] }

end LabLens

/-- C5: For every catalog and every input text shorter than the minimum
length threshold (100 characters), the engine fails with the
insufficient-text error; the `Except` result carries the structured error
alone, never a partial `AnalysisResult`. -/
theorem LabLens.parseLabResults_insufficientText (definitions : Catalog)
    (extractedText : List Char) (h : extractedText.length < 100) :
    parseLabResults definitions extractedText =
      Except.error ParseError.insufficientText := by
  unfold parseLabResults
  rw [if_pos h]

/-- Witness for C5: the 3-character text `"abc"` is below the threshold and
the engine rejects it with the insufficient-text error. -/
theorem LabLens.parseLabResults_insufficientText_witness :
    (("abc").data).length < 100 ∧
    parseLabResults cbcCatalog (("abc").data) =
      Except.error ParseError.insufficientText :=
  ⟨by decide, LabLens.parseLabResults_insufficientText cbcCatalog
    (("abc").data) (by decide)⟩

/-- C6: For every catalog and every input text of at least the minimum
length in which no test of any panel matches, the engine fails with the
no-match error, reported as a structured error rather than a partial
result. -/
theorem LabLens.parseLabResults_noMatch (definitions : Catalog)
    (extractedText : List Char) (hlen : 100 ≤ extractedText.length)
    (hnone : ∀ p ∈ definitions.labPanels, ∀ t ∈ p.2.tests,
      extractSingleTest extractedText t.2 t.1 = none) :
    parseLabResults definitions extractedText =
      Except.error ParseError.noMatch := by
  have hpanels : assemblePanels definitions extractedText = [] := by
    unfold assemblePanels
    rw [List.filterMap_eq_nil_iff]
    intro p hp
    have h1 : extractTestsForPanel extractedText p.2 = [] := by
      unfold extractTestsForPanel
      rw [List.filterMap_eq_nil_iff]
      intro t ht
      rw [hnone p hp t ht]
      rfl
    simp [h1]
  unfold parseLabResults
  rw [if_neg (by omega), if_pos hpanels]

/-- Witness for C6: over 100 characters of `x` no pattern of `cbcCatalog`
matches, and the engine reports the no-match error. -/
theorem LabLens.parseLabResults_noMatch_witness :
    100 ≤ blankText.length ∧
    (∀ p ∈ cbcCatalog.labPanels, ∀ t ∈ p.2.tests,
      extractSingleTest blankText t.2 t.1 = none) ∧
    parseLabResults cbcCatalog blankText = Except.error ParseError.noMatch :=
  ⟨by decide, by decide,
   LabLens.parseLabResults_noMatch cbcCatalog blankText (by decide) (by decide)⟩

/-- C9: Whenever the engine succeeds, every panel of the result has at
least one matched test, and every catalog panel with at least one matched
test appears in the result (with exactly its matched tests); panels with
zero matches are omitted. -/
theorem LabLens.parseLabResults_ok_panels (definitions : Catalog)
    (extractedText : List Char) (res : AnalysisResult)
    (h : parseLabResults definitions extractedText = Except.ok res) :
    (∀ p ∈ res.panels, p.2.tests ≠ []) ∧
    (∀ q ∈ definitions.labPanels,
      extractTestsForPanel extractedText q.2 ≠ [] →
      ((q.1, { name := q.2.name, description := q.2.description,
               tests := extractTestsForPanel extractedText q.2 }) :
        List Char × Panel) ∈ res.panels) := by
  unfold parseLabResults at h
  split at h
  · exact absurd h (by simp)
  split at h
  · exact absurd h (by simp)
  have hres : res = { panels := assemblePanels definitions extractedText } := by
    cases h
    rfl
  subst hres
  constructor
  · intro p hp
    unfold assemblePanels at hp
    rw [List.mem_filterMap] at hp
    obtain ⟨a, _, hfa⟩ := hp
    dsimp only at hfa
    by_cases hc : extractTestsForPanel extractedText a.2 = []
    · rw [if_pos hc] at hfa
      cases hfa
    · rw [if_neg hc] at hfa
      cases hfa
      exact hc
  · intro q hq hne
    unfold assemblePanels
    rw [List.mem_filterMap]
    exact ⟨q, hq, by simp [hne]⟩

/-- Witness for C9 on `cbcCatalog` and `reportText`: the engine succeeds,
its one panel is non-empty, and the catalog panel with a match appears. -/
theorem LabLens.parseLabResults_ok_panels_witness :
    parseLabResults cbcCatalog reportText = Except.ok cbcResult ∧
    ((∀ p ∈ cbcResult.panels, p.2.tests ≠ []) ∧
     (∀ q ∈ cbcCatalog.labPanels,
       extractTestsForPanel reportText q.2 ≠ [] →
       ((q.1, { name := q.2.name, description := q.2.description,
                tests := extractTestsForPanel reportText q.2 }) :
         List Char × Panel) ∈ cbcResult.panels)) :=
  ⟨by rfl,
   LabLens.parseLabResults_ok_panels cbcCatalog reportText cbcResult (by rfl)⟩

namespace LabLens

/-- Fixture: a haemoglobin definition whose range is gender-keyed, with
both entries present. -/
def hgbGenderedDef : TestDef :=
  { name := ("HGB").data, unit := ("g/L").data,
    referenceRange := RefRange.gendered (some (135, 175)) (some (120, 155)),
    explanation := ("Oxygen-carrying protein").data,
    category := ("blood").data }

/-- Fixture: an ESR definition whose range is the plain string
`"varies by age"`. -/
def esrStrDef : TestDef :=
  { name := ("ESR").data, unit := ("mm/hr").data,
    referenceRange := RefRange.str (("varies by age").data),
    explanation := ("Inflammation marker").data,
    category := ("blood").data }

end LabLens

/-- C7: For a test whose reference range is a gender-keyed mapping, the
engine picks one entry by the fixed default priority — the male entry when
present, otherwise the female one — and that single entry's `{min, max}`
supplies both the human-readable range string and the flag classification
of every extracted record.  (`extractSingleTest` is a pure function, so the
choice is the same on every run for the same definition.) -/
theorem LabLens.extractSingleTest_gendered (text testId : List Char)
    (testDef : TestDef) (m f : Option (ℚ × ℚ)) (mn mx : ℚ) (r : ExtractedTest)
    (hrr : testDef.referenceRange = RefRange.gendered m f)
    (hpick : pickGenderRange m f = some (mn, mx))
    (hex : extractSingleTest text testDef testId = some r) :
    r.referenceRange = some (rangeString mn mx testDef.unit) ∧
    r.flag = determineFlag r.value mn mx ∧
    r.referenceRangeNumeric = some (RefRange.gendered m f) := by
  unfold extractSingleTest at hex
  cases hval : extractValue text (testNamePatterns testId testDef) with
  | none => rw [hval] at hex; cases hex
  | some v =>
    rw [hval, hrr] at hex
    dsimp only at hex
    rw [hpick] at hex
    cases hex
    exact ⟨rfl, rfl, rfl⟩

namespace LabLens

/-- Fixture: the record `extractSingleTest` produces from `reportText` and
`hgbGenderedDef` (male entry selected). -/
def hgbGenderedResult : ExtractedTest :=
  { name := ("HGB").data, value := some 140, unit := ("g/L").data,
    referenceRange := some (("135 - 175 g/L").data),
    referenceRangeNumeric :=
      some (RefRange.gendered (some (135, 175)) (some (120, 155))),
    flag := Flag.normal,
    explanation := ("Oxygen-carrying protein").data,
    category := ("blood").data }

end LabLens

/-- Witness for C7: with both gendered entries present the male range
`135-175` is selected and drives both the rendered range string and the
flag of the extracted record. -/
theorem LabLens.extractSingleTest_gendered_witness :
    hgbGenderedDef.referenceRange =
      RefRange.gendered (some (135, 175)) (some (120, 155)) ∧
    pickGenderRange (some (135, 175)) (some (120, 155)) = some (135, 175) ∧
    extractSingleTest reportText hgbGenderedDef (("hgb").data) =
      some hgbGenderedResult ∧
    (hgbGenderedResult.referenceRange =
       some (rangeString 135 175 hgbGenderedDef.unit) ∧
     hgbGenderedResult.flag =
       determineFlag hgbGenderedResult.value 135 175 ∧
     hgbGenderedResult.referenceRangeNumeric =
       some (RefRange.gendered (some (135, 175)) (some (120, 155)))) :=
  ⟨rfl, rfl, by rfl,
   LabLens.extractSingleTest_gendered reportText (("hgb").data) hgbGenderedDef
     (some (135, 175)) (some (120, 155)) 135 175 hgbGenderedResult
     rfl rfl (by rfl)⟩

/-- The inner `forEach` of `calculateSummary`: folding the counter update
over one panel's tests adds the length and the per-flag counts to the
accumulator. -/
theorem LabLens.summaryStep_foldl (l : List (List Char × ExtractedTest))
    (acc : SummaryAcc) :
    l.foldl (fun a t => summaryStep a t.2) acc =
      { totalTests := acc.totalTests + l.length,
        normalCount :=
          acc.normalCount + l.countP (fun t => t.2.flag = Flag.normal),
        borderlineCount :=
          acc.borderlineCount + l.countP (fun t => t.2.flag = Flag.borderline),
        abnormalCount :=
          acc.abnormalCount + l.countP (fun t => t.2.flag = Flag.abnormal),
        criticalCount :=
          acc.criticalCount + l.countP (fun t => t.2.flag = Flag.critical) } := by
  induction l generalizing acc with
  | nil => simp
  | cons t l ih =>
    rw [List.foldl_cons, ih]
    cases h : t.2.flag <;>
      simp [summaryStep, h, List.countP_cons] <;> omega

/-- The outer `forEach` of `calculateSummary` over all panels, phrased via
the flattened list of every test of every panel. -/
theorem LabLens.summary_foldl_panels (panels : List (List Char × Panel))
    (acc : SummaryAcc) :
    panels.foldl
        (fun a p => p.2.tests.foldl (fun a t => summaryStep a t.2) a) acc =
      { totalTests :=
          acc.totalTests + ((panels.map fun p => p.2.tests).flatten).length,
        normalCount :=
          acc.normalCount + ((panels.map fun p => p.2.tests).flatten).countP
            (fun t => t.2.flag = Flag.normal),
        borderlineCount :=
          acc.borderlineCount + ((panels.map fun p => p.2.tests).flatten).countP
            (fun t => t.2.flag = Flag.borderline),
        abnormalCount :=
          acc.abnormalCount + ((panels.map fun p => p.2.tests).flatten).countP
            (fun t => t.2.flag = Flag.abnormal),
        criticalCount :=
          acc.criticalCount + ((panels.map fun p => p.2.tests).flatten).countP
            (fun t => t.2.flag = Flag.critical) } := by
  induction panels generalizing acc with
  | nil => simp
  | cons p ps ih =>
    rw [List.foldl_cons, LabLens.summaryStep_foldl, ih]
    simp [List.countP_append]
    omega

/-- C8: The summary is a pure aggregation of the assembled result set:
`totalTests` is the number of extracted tests across all panels, each flag
count is the number of tests carrying that flag, and the flagged count
(field `flaggedTests`) equals `totalTests − normalCount`. -/
theorem LabLens.calculateSummary_pure (panels : List (List Char × Panel)) :
    calculateSummary panels =
      { totalTests := ((panels.map fun p => p.2.tests).flatten).length,
        normalCount := ((panels.map fun p => p.2.tests).flatten).countP
          (fun t => t.2.flag = Flag.normal),
        borderlineCount := ((panels.map fun p => p.2.tests).flatten).countP
          (fun t => t.2.flag = Flag.borderline),
        abnormalCount := ((panels.map fun p => p.2.tests).flatten).countP
          (fun t => t.2.flag = Flag.abnormal),
        criticalCount := ((panels.map fun p => p.2.tests).flatten).countP
          (fun t => t.2.flag = Flag.critical),
        flaggedTests :=
          ((panels.map fun p => p.2.tests).flatten).length -
            ((panels.map fun p => p.2.tests).flatten).countP
              (fun t => t.2.flag = Flag.normal) } := by
  unfold calculateSummary
  rw [LabLens.summary_foldl_panels]
  simp

namespace LabLens

/-- Helper for `stripParenContent`; the flag is `true` while inside a
parenthesized group. -/
def stripParenAux : Bool → List Char → List Char
  | _, [] => []
  | false, '(' :: r => stripParenAux true r
  | false, c :: r => c :: stripParenAux false r
  | true, ')' :: r => stripParenAux false r
  | true, _ :: r => stripParenAux true r

/-- Modelled from the spec: the second candidate pattern as §4.2 words it —
"that name with parenthetical content stripped" — i.e. parenthesized
substrings removed together with their content.  Present only to compare
the spec's description against the source's `replace(/[()]/g, '')`, which
removes the parenthesis characters but keeps the content. -/
def stripParenContent (s : List Char) : List Char := stripParenAux false s

/-- Fixture: a definition whose display name carries a parenthetical. -/
def hgbParenDef : TestDef :=
  { name := ("Hemoglobin (Hgb)").data, unit := ("g/L").data,
    referenceRange := RefRange.flat 120 155,
    explanation := ("Oxygen-carrying protein").data,
    category := ("blood").data }

/-- Fixture: a definition whose display name does not occur in
`reportText`, so that only the third pattern (the uppercased id) matches. -/
def hgbNameDef : TestDef :=
  { name := ("Hemoglobin").data, unit := ("g/L").data,
    referenceRange := RefRange.flat 120 155,
    explanation := ("Oxygen-carrying protein").data,
    category := ("blood").data }

end LabLens

/-- Counterexample to C3 as stated: for the display name
`"Hemoglobin (Hgb)"` the second pattern the engine builds is
`"Hemoglobin Hgb"` — the parenthesis characters are removed but their
content is kept — which differs from the claimed pattern list whose second
entry has the parenthetical content stripped (`"Hemoglobin "`). -/
theorem LabLens.testNamePatterns_paren_counterexample :
    testNamePatterns (("hgb").data) hgbParenDef ≠
      [hgbParenDef.name, stripParenContent hgbParenDef.name,
       asciiUpper (("hgb").data),
       asciiUpper (underscoreToSpace (("hgb").data))] ∧
    removeParenChars hgbParenDef.name = ("Hemoglobin Hgb").data ∧
    stripParenContent hgbParenDef.name = ("Hemoglobin ").data :=
  ⟨by decide, by decide, by decide⟩

/-- The function `List.findSome?` returns the image of the first element on which `f`
succeeds, when all earlier elements fail. -/
theorem LabLens.findSome_first {α β : Type} (f : α → Option β) (l : List α)
    (i : ℕ) (hi : i < l.length) (b : β)
    (hmatch : f (l.get ⟨i, hi⟩) = some b)
    (hbefore : ∀ j (hj : j < i), f (l.get ⟨j, Nat.lt_trans hj hi⟩) = none) :
    l.findSome? f = some b := by
  induction l generalizing i with
  | nil => exact absurd hi (by simp)
  | cons a l ih =>
    cases i with
    | zero =>
      rw [List.findSome?_cons, show f a = some b from hmatch]
    | succ j =>
      have h0 : f a = none := hbefore 0 (Nat.succ_pos j)
      rw [List.findSome?_cons, h0]
      exact ih j (Nat.lt_of_succ_lt_succ hi)
        (show f (l.get ⟨j, Nat.lt_of_succ_lt_succ hi⟩) = some b from hmatch)
        (fun k hk =>
          show f (l.get ⟨k, Nat.lt_trans hk (Nat.lt_of_succ_lt_succ hi)⟩) = none
            from hbefore (k + 1) (Nat.succ_lt_succ hk))

/-- C3 (amended): The engine builds exactly four candidate patterns in
the fixed order: the declared display name; that name with the parenthesis
characters removed (their content kept); the id uppercased; the id with
underscores replaced by spaces and uppercased.  They are tried in that
order and the first pattern whose match rule succeeds determines the
extracted value (its capture is handed to `parseFloat`); later patterns
are never consulted. -/
theorem LabLens.testNamePatterns_firstMatch (text testId : List Char)
    (testDef : TestDef) (i : ℕ)
    (hi : i < (testNamePatterns testId testDef).length) (c : List Char)
    (hmatch : findMatch text ((testNamePatterns testId testDef).get ⟨i, hi⟩) =
      some c)
    (hbefore : ∀ j (hj : j < i),
      findMatch text
        ((testNamePatterns testId testDef).get ⟨j, Nat.lt_trans hj hi⟩) =
        none) :
    testNamePatterns testId testDef =
      [testDef.name, removeParenChars testDef.name, asciiUpper testId,
       asciiUpper (underscoreToSpace testId)] ∧
    extractValue text (testNamePatterns testId testDef) =
      some (parseFloatRun c) := by
  refine ⟨rfl, ?_⟩
  unfold extractValue
  rw [LabLens.findSome_first (fun p => findMatch text p)
    (testNamePatterns testId testDef) i hi c hmatch hbefore]
  rfl

/-- Witness for C3 (amended) with a genuine ordering instance: the first
two patterns of `hgbNameDef` find nothing in `reportText`, the third (the
uppercased id `HGB`) matches and its capture `140` fixes the value. -/
theorem LabLens.testNamePatterns_firstMatch_witness :
    findMatch reportText
      ((testNamePatterns (("hgb").data) hgbNameDef).get ⟨2, by decide⟩) =
      some (("140").data) ∧
    (∀ j (hj : j < 2),
      findMatch reportText
        ((testNamePatterns (("hgb").data) hgbNameDef).get
          ⟨j, Nat.lt_trans hj (by decide)⟩) = none) ∧
    (testNamePatterns (("hgb").data) hgbNameDef =
      [hgbNameDef.name, removeParenChars hgbNameDef.name,
       asciiUpper (("hgb").data),
       asciiUpper (underscoreToSpace (("hgb").data))] ∧
     extractValue reportText (testNamePatterns (("hgb").data) hgbNameDef) =
       some (parseFloatRun (("140").data))) :=
  ⟨by decide, by decide,
   LabLens.testNamePatterns_firstMatch reportText (("hgb").data) hgbNameDef
     2 (by decide) (("140").data) (by decide) (by decide)⟩

/-- The function `dropPattern` recognizes its own pattern at the head of the text. -/
theorem LabLens.dropPattern_self_append (pat x : List Char) :
    dropPattern pat (pat ++ x) = some x := by
  induction pat with
  | nil => rfl
  | cons p ps ih => simp [dropPattern, ih]

/-- A digit or dot is not whitespace. -/
theorem LabLens.numChar_not_ws (c : Char) (h : isNumChar c = true) :
    isWS c = false := by
  unfold isNumChar at h
  have hnum := of_decide_eq_true h
  unfold isWS
  apply decide_eq_false
  intro hws
  rcases hws with h1 | h1 | h1 | h1 <;> subst h1 <;>
    rcases hnum with hd | hd <;> exact absurd hd (by decide)

/-- Applying `dropWhile isWS` consumes a whitespace block and stops at the first
non-whitespace character. -/
theorem LabLens.dropWhile_ws_append (w s : List Char)
    (hw : ∀ c ∈ w, isWS c = true)
    (hs : ∀ c, s.head? = some c → isWS c = false) :
    (w ++ s).dropWhile isWS = s := by
  induction w with
  | nil =>
    simp only [List.nil_append]
    cases s with
    | nil => rfl
    | cons a u => simp [List.dropWhile_cons, hs a rfl]
  | cons a w ih =>
    have ha : isWS a = true := hw a (List.mem_cons_self a w)
    rw [List.cons_append, List.dropWhile_cons, ha, if_pos rfl]
    exact ih (fun c hc => hw c (List.mem_cons_of_mem a hc))

/-- The greedy capture `[0-9.]+` takes the whole digit/dot run and stops at
the first character that is neither. -/
theorem LabLens.takeWhile_num_append (r t : List Char)
    (hr : ∀ c ∈ r, isNumChar c = true)
    (ht : ∀ c, t.head? = some c → isNumChar c = false) :
    (r ++ t).takeWhile isNumChar = r := by
  induction r with
  | nil =>
    simp only [List.nil_append]
    cases t with
    | nil => rfl
    | cons a u => simp [List.takeWhile_cons, ht a rfl]
  | cons a r ih =>
    have ha : isNumChar a = true := hr a (List.mem_cons_self a r)
    rw [List.cons_append, List.takeWhile_cons, ha, if_pos rfl]
    rw [ih (fun c hc => hr c (List.mem_cons_of_mem a hc))]

/-- JS `parseFloat` succeeds on a captured run that starts with a digit. -/
theorem LabLens.parseFloatRun_digit_lead (d : Char) (ds : List Char)
    (hd : d.isDigit = true) : ∃ q : ℚ, parseFloatRun (d :: ds) = some q := by
  unfold parseFloatRun
  dsimp only
  rw [List.takeWhile_cons, if_pos hd]
  split
  · rw [if_neg (by simp)]
    exact ⟨_, rfl⟩
  · rw [if_neg (by simp)]
    exact ⟨_, rfl⟩

/-- JS `parseFloat` succeeds on a captured run of the form `.⟨digit⟩…`. -/
theorem LabLens.parseFloatRun_dot_digit (d : Char) (ds : List Char)
    (hd : d.isDigit = true) :
    ∃ q : ℚ, parseFloatRun ('.' :: d :: ds) = some q := by
  unfold parseFloatRun
  dsimp only
  rw [List.takeWhile_cons, if_neg (by decide)]
  simp only [List.length_nil, List.drop_zero, List.takeWhile_cons, hd,
    if_pos rfl]
  rw [if_neg (by simp)]
  exact ⟨_, rfl⟩

/-- C4 (amended): For a candidate pattern, the captured token is the
maximal run of digit/dot characters following the pattern after optional
whitespace, an optional colon virgule and optional whitespace; the match
succeeds with or without the declared unit after the number (the trailing
`\s*(unit)?` group is never required), and the extracted value is
`parseFloat` of that run — a genuine number whenever the run starts with a
digit or with a dot followed by a digit, and `NaN` otherwise (in which case
the test is still included with value `NaN`). -/
theorem LabLens.matchCapture_number (pat w1 w2 r t : List Char)
    (hw1 : ∀ c ∈ w1, isWS c = true) (hw2 : ∀ c ∈ w2, isWS c = true)
    (hrne : r ≠ []) (hrnum : ∀ c ∈ r, isNumChar c = true)
    (ht : ∀ c, t.head? = some c → isNumChar c = false) :
    matchCapture pat ((pat ++ w1) ++ ':' :: (w2 ++ (r ++ t))) = some r ∧
    matchCapture pat ((pat ++ w1) ++ (r ++ t)) = some r ∧
    ((∃ d ds, r = d :: ds ∧ d.isDigit = true) ∨
     (∃ d ds, r = '.' :: d :: ds ∧ d.isDigit = true) →
      ∃ q : ℚ, parseFloatRun r = some q) := by
  obtain ⟨d, ds, rfl⟩ := List.exists_cons_of_ne_nil hrne
  have hd : isNumChar d = true := hrnum d (List.mem_cons_self d ds)
  have hdws : isWS d = false := LabLens.numChar_not_ws d hd
  have hdc : d ≠ ':' := by
    intro h
    subst h
    exact absurd hd (by decide)
  have hheadws : ∀ c, ((d :: ds) ++ t).head? = some c → isWS c = false := by
    intro c hc
    rw [List.cons_append] at hc
    cases hc
    exact hdws
  have hrun : ((d :: ds) ++ t).takeWhile isNumChar = d :: ds :=
    LabLens.takeWhile_num_append (d :: ds) t hrnum ht
  refine ⟨?_, ?_, ?_⟩
  · unfold matchCapture
    rw [List.append_assoc, LabLens.dropPattern_self_append]
    dsimp only
    rw [LabLens.dropWhile_ws_append w1 _ hw1
      (fun c hc => by cases hc; decide)]
    rw [List.head?_cons, if_pos rfl, List.tail_cons]
    rw [LabLens.dropWhile_ws_append w2 _ hw2 hheadws, hrun,
      if_neg (by simp)]
  · unfold matchCapture
    rw [List.append_assoc, LabLens.dropPattern_self_append]
    dsimp only
    rw [LabLens.dropWhile_ws_append w1 _ hw1 hheadws]
    rw [List.cons_append, List.head?_cons,
      if_neg (fun h => hdc (Option.some.inj h)), ← List.cons_append, hrun,
      if_neg (by simp)]
  · rintro (⟨e, es, heq, he⟩ | ⟨e, es, heq, he⟩) <;> rw [heq]
    · exact LabLens.parseFloatRun_digit_lead e es he
    · exact LabLens.parseFloatRun_dot_digit e es he

/-- Witness for C4 (amended) at `"HGB: 140 g/L"` and `"HGB: 140"`: the
pattern `HGB` captures the run `140` with and without the trailing unit,
and `parseFloat` turns the digit-leading run into a number. -/
theorem LabLens.matchCapture_number_witness :
    matchCapture (("HGB").data)
      (((("HGB").data ++ []) ++ ':' :: ((' ' :: []) ++
        ((("140").data) ++ (" g/L").data)))) = some (("140").data) ∧
    matchCapture (("HGB").data)
      (((("HGB").data ++ []) ++ ((("140").data) ++ (" g/L").data))) =
      some (("140").data) ∧
    ((∃ d ds, ("140").data = d :: ds ∧ d.isDigit = true) ∨
     (∃ d ds, ("140").data = '.' :: d :: ds ∧ d.isDigit = true) →
      ∃ q : ℚ, parseFloatRun (("140").data) = some q) :=
  LabLens.matchCapture_number (("HGB").data) [] (' ' :: []) (("140").data)
    ((" g/L").data) (by decide) (by decide) (by decide) (by decide) (by decide)

/-- Counterexample to C4 as stated: in the text `"HGB: ..5"` the capture
group `[0-9.]+` matches the run `..5`, which is not a sequence of digits
with at most one decimal point; `parseFloat` yields `NaN`, yet the test is
still extracted — the record is included with `value = NaN` (modelled
`none`) rather than with any numeric value. -/
theorem LabLens.extractValue_nan_counterexample :
    ((extractSingleTest (("HGB: ..5").data) hgbDef (("hgb").data)).map
      (fun r => r.value)) = some none ∧
    findMatch (("HGB: ..5").data) (("HGB").data) = some (("..5").data) ∧
    parseFloatRun (("..5").data) = none :=
  ⟨by rfl, by rfl, by rfl⟩

namespace LabLens

/-- Modelled from the spec (§3): "every reference range variant has
min < max", as a checkable condition on one stored range. -/
def rangeOk : RefRange → Bool
  | RefRange.flat mn mx => mn < mx
  | RefRange.gendered m f =>
    (m.all fun p => p.1 < p.2) && (f.all fun p => p.1 < p.2)
  | RefRange.str _ => true

/-- Modelled from the spec (§4.1): the validation the Catalog Loader is
described to perform — no panel has duplicate test ids and no stored range
has min ≥ max.  (The third described condition, missing `name`/`unit`
fields, is unrepresentable in the typed catalog.)  Present only to compare
the spec's contract with the source's load step, which checks nothing. -/
def specCatalogValid (c : Catalog) : Bool :=
  c.labPanels.all fun p =>
    (p.2.tests.map fun t => t.1).Nodup &&
    p.2.tests.all fun t => rangeOk t.2.referenceRange

/-- Fixture: a catalog violating both validation conditions — the test id
`t1` appears twice in the panel and the first range has min 10 ≥ max 5. -/
def badCatalog : Catalog :=
  { labPanels := [ (("p1").data,
      { name := ("Panel 1").data,
        description := ("demo").data,
        tests :=
          [ (("t1").data,
             { name := ("ALPHA").data, unit := ("g/L").data,
               referenceRange := RefRange.flat 10 5,
               explanation := ("x").data, category := ("c").data }),
            (("t1").data,
             { name := ("BETA").data, unit := ("g/L").data,
               referenceRange := RefRange.flat 1 2,
               explanation := ("x").data, category := ("c").data }) ] }) ] }

end LabLens

/-- Counterexample to C2 as stated: `badCatalog` has a duplicated test id
within its panel and a reference range with min ≥ max, yet the load step
accepts it unchanged — no `ValidationError` is ever produced. -/
theorem LabLens.loadCatalog_counterexample :
    specCatalogValid badCatalog = false ∧
    loadCatalog badCatalog = Except.ok badCatalog :=
  ⟨by decide, rfl⟩

/-- C2 (amended): The load step performs no validation at all: every
parsed catalog document — including one with duplicate test ids or a range
with min ≥ max — loads successfully, is returned unchanged, and
`ValidationError` is never raised; success has no other effect. -/
theorem LabLens.loadCatalog_no_validation (doc : Catalog) :
    loadCatalog doc = Except.ok doc :=
  rfl

/-- C10: A matched test whose reference range is neither a numeric
`{min, max}` object nor a gender-keyed mapping — here, a plain string range
— is still included in the result, with flag `'normal'` whatever its value
and with `referenceRangeNumeric` equal to `null`; it can never be flagged
Borderline, Abnormal or Critical. -/
theorem LabLens.extractSingleTest_strRange (text testId : List Char)
    (testDef : TestDef) (s : List Char) (v : Option ℚ)
    (hrr : testDef.referenceRange = RefRange.str s)
    (hval : extractValue text (testNamePatterns testId testDef) = some v) :
    extractSingleTest text testDef testId =
      some { name := testDef.name, value := v, unit := testDef.unit,
             referenceRange := some s, referenceRangeNumeric := none,
             flag := Flag.normal,
             explanation := testDef.explanation,
             category := testDef.category } := by
  unfold extractSingleTest
  rw [hval, hrr]

/-- Witness for C10: a far-out ESR reading of 140 against the string range
`"varies by age"` is included with flag `'normal'` and a `null` numeric
range. -/
theorem LabLens.extractSingleTest_strRange_witness :
    esrStrDef.referenceRange = RefRange.str (("varies by age").data) ∧
    extractValue (("ESR: 140 ").data) (testNamePatterns (("esr").data) esrStrDef) =
      some (some 140) ∧
    extractSingleTest (("ESR: 140 ").data) esrStrDef (("esr").data) =
      some { name := ("ESR").data, value := some 140, unit := ("mm/hr").data,
             referenceRange := some (("varies by age").data),
             referenceRangeNumeric := none,
             flag := Flag.normal,
             explanation := ("Inflammation marker").data,
             category := ("blood").data } :=
  ⟨rfl, by rfl,
   LabLens.extractSingleTest_strRange (("ESR: 140 ").data) (("esr").data)
     esrStrDef (("varies by age").data) (some 140) rfl (by rfl)⟩
